import Mathlib

/-!
Verification of the deploy-easy backend (deployment orchestration pipeline).

Shallow embedding of the relevant backend modules:
  * `backend/src/models/Project.js`            (Project / Deployment schema)
  * `backend/src/controllers/projectController.js`
  * `backend/src/services/deploymentService.js`
  * `backend/src/services/dockerService.js`

External effects (MongoDB, the filesystem, docker, nginx, S3, socket.io) are
modelled by explicit state passing: the project store is a `List Project`, the
filesystem is a list of existing directory paths, the log stream is a list of
`LogEntry` values keyed by the socket room id, and the outcome of each
external command (git clone, npm, docker build, `nginx -t`, ...) is supplied
by an environment record, one `Option String` per fallible step (`none` =
the step succeeded, `some msg` = the step threw an error with message `msg`).
-/

/-- Log severity, from the `logs.level` enum in `Project.js`. -/
inductive Level where
  | info
  | warn
  | error
  | success
deriving DecidableEq, Repr

/-- One emitted log event.  `emitLog(projectId, level, message)` in
`deploymentService.js` emits to the socket room `project-${projectId}`; the
`room` field records the id used (the project id, except for the
`configureNginx` calls which pass the subdomain). -/
structure LogEntry where
  room : String
  level : Level
  message : String
deriving DecidableEq, Repr

/-- Project status enum from `Project.js`. -/
inductive Status where
  | idle
  | deploying
  | running
  | failed
  | stopped
deriving DecidableEq, Repr

/-- An embedded deployment record (`deploymentSchema` in `Project.js`). -/
structure Deployment where
  version : String
  status : Status
  buildType : String
  containerId : Option String
  s3Path : Option String
  deployUrl : String
  port : Option Nat
  completedAt : Option Nat
deriving DecidableEq, Repr

/-- Build configuration subdocument of the project schema. -/
structure BuildConfig where
  rootDirectory : String
  buildCommand : String
  publishDirectory : String
deriving DecidableEq, Repr

/-- A project document (`projectSchema` in `Project.js`). -/
structure Project where
  id : String
  owner : String
  name : String
  githubRepo : String
  subDomain : String
  buildConfig : BuildConfig
  buildType : String
  status : Status
  currentDeployment : Option Deployment
  deployments : List Deployment
  deployUrl : String
  s3Path : Option String
  containerId : Option String
  envVars : List (String × String)
deriving DecidableEq, Repr

/-- `BASE_DOMAIN` fallback from `deploymentService.js`. -/
def BASE_DOMAIN : String := "gulamgaush.in"

/-- Subdomain normalization from `Project.js`:
`subDomain.toLowerCase().replace(/[^a-z0-9-]/g, '')` — lowercase everything,
then drop every character outside `[a-z0-9-]`. -/
def normalizeSubDomain (s : String) : String :=
  String.mk ((s.data.map Char.toLower).filter
    (fun c => decide (('a' ≤ c ∧ c ≤ 'z') ∨ ('0' ≤ c ∧ c ≤ '9') ∨ c = '-')))

/-- The duplicate-subdomain lookup in `createProject`
(`Project.findOne({ subDomain })`): it matches the stored subdomain against
the *raw* request value. -/
def subdomainTaken (store : List Project) (sub : String) : Bool :=
  store.any (fun p => p.subDomain == sub)

/-- `generateDeployUrl` from `Project.js` (normalizes its own copy of the
subdomain before building the URL). -/
def generateDeployUrl (sub : String) : String :=
  "https://" ++ normalizeSubDomain sub ++ "." ++ BASE_DOMAIN

/-- Outcome of the create-project request handler. -/
inductive CreateOutcome where
  | duplicate
  | created (p : Project)
deriving DecidableEq, Repr

/-- `createProject` from `projectController.js`, composed with the
`pre('save')` hook from `Project.js`:
1. look up an existing project whose stored subdomain equals the raw request
   subdomain; if found, reject with 400 "Subdomain is already taken";
2. otherwise build the document, set `deployUrl`, and save — the pre-save
   hook normalizes `subDomain` at this point, after the uniqueness check. -/
def createProject (store : List Project) (owner newId nm repo sub bType : String) :
    CreateOutcome × List Project :=
  if subdomainTaken store sub then
    (CreateOutcome.duplicate, store)
  else
    let saved : Project :=
      { id := newId
        owner := owner
        name := nm
        githubRepo := repo
        subDomain := normalizeSubDomain sub
        buildConfig := ⟨".", "npm run build", "dist"⟩
        buildType := bType
        status := Status.idle
        currentDeployment := none
        deployments := []
        deployUrl := generateDeployUrl sub
        s3Path := none
        containerId := none
        envVars := [] }
    (CreateOutcome.created saved, store ++ [saved])

/-- A stored project with subdomain `myapp`, used as the pre-existing record
in the uniqueness-check scenarios. -/
def pMyapp : Project :=
  { id := "p1"
    owner := "o1"
    name := "myapp"
    githubRepo := "https://github.com/u/myapp"
    subDomain := "myapp"
    buildConfig := ⟨".", "npm run build", "dist"⟩
    buildType := "static"
    status := Status.idle
    currentDeployment := none
    deployments := []
    deployUrl := "https://myapp.gulamgaush.in"
    s3Path := none
    containerId := none
    envVars := [] }

/-- Claim C2: the spec requires the subdomain to be normalized *before* the
uniqueness check, so that input `"MyApp!"` is rejected as a duplicate of a
stored `"myapp"`.  The code checks the raw request value and normalizes only
in the pre-save hook: `"MyApp!"` normalizes to `"myapp"`, the raw check finds
no match, the checked-on-normalized-form lookup would have found one, and the
create goes through, leaving two stored projects with subdomain `"myapp"`. -/
theorem createProject_raw_check_bypass :
    normalizeSubDomain "MyApp!" = "myapp" ∧
    subdomainTaken [pMyapp] "MyApp!" = false ∧
    subdomainTaken [pMyapp] (normalizeSubDomain "MyApp!") = true ∧
    (createProject [pMyapp] "o2" "p2" "myapp2" "repo2" "MyApp!" "static").1 ≠
      CreateOutcome.duplicate ∧
    ((createProject [pMyapp] "o2" "p2" "myapp2" "repo2" "MyApp!" "static").2.filter
      (fun p => p.subDomain == "myapp")).length = 2 := by
  decide

/-- Temp directory constant from the `DeploymentService` constructor. -/
def tempDir : String := "/tmp/deployments"

/-- `const deploymentId = project.name || uuidv4()` — the project's name when
truthy, otherwise a fresh UUID (supplied by the environment). -/
def deploymentIdOf (p : Project) (uuid : String) : String :=
  if p.name = "" then uuid else p.name

/-- `const projectPath = path.join(this.tempDir, deploymentId)`. -/
def projectPathOf (p : Project) (uuid : String) : String :=
  tempDir ++ "/" ++ deploymentIdOf p uuid

/-- `Project.findByIdAndUpdate(projectId, { status })` (plus a status socket
event, not modelled): overwrite the status field. -/
def updateProjectStatus (p : Project) (st : Status) : Project :=
  { p with status := st }

/-- The object literal passed to `updateProjectDeployment` in `deploy()`. -/
structure DeploymentData where
  status : Status
  deployUrl : String
  s3Path : Option String
  containerId : Option String
  buildType : String
  port : Option Nat
  completedAt : Option Nat
deriving DecidableEq, Repr

/-- `DeploymentService.updateProjectDeployment`: overwrite status, deployUrl,
buildType; replace `currentDeployment` wholesale with the new record (adding
a version stamp); copy s3Path / containerId to the top level only when
truthy.  The `deployments` history array is not touched. -/
def updateProjectDeployment (p : Project) (d : DeploymentData) (version : String) : Project :=
  { p with
    status := d.status
    deployUrl := d.deployUrl
    buildType := d.buildType
    currentDeployment :=
      some ⟨version, d.status, d.buildType, d.containerId, d.s3Path, d.deployUrl,
            d.port, d.completedAt⟩
    s3Path := match d.s3Path with | some s => some s | none => p.s3Path
    containerId := match d.containerId with | some c => some c | none => p.containerId }

/-- Environment of one deployment run: the UUID fallback, the version/time
stamps, and the outcome of each fallible external step (`none` = success,
`some msg` = that step threw with message `msg`), plus the container id and
host port produced by a successful docker deployment. -/
structure DeployEnv where
  uuid : String
  version : String
  now : Nat
  cloneErr : Option String
  installErr : Option String
  buildErr : Option String
  publishErr : Option String
  dockerErr : Option String
  nginxErr : Option String
  dockerContainerId : String
  dockerPort : Nat
deriving DecidableEq, Repr

/-- `fs.rm(projectPath, { recursive: true, force: true })` in `cleanupTemp`. -/
def removeDir (l : List String) (x : String) : List String :=
  l.filter (fun d => d != x)

/-- `git.clone(repoUrl, targetPath)` creating the target directory. -/
def addDir (l : List String) (x : String) : List String :=
  if x ∈ l then l else l ++ [x]

/-- The `try` body of `DeploymentService.deploy(project)`, stage by stage.
An `Except.error` carries the thrown message together with the logs emitted
and the filesystem state reached so far; `Except.ok` carries the updated
project, the logs, and the filesystem state.  Stage wrapping of messages
follows the source: `buildStaticProject` throws `Static build failed: ...`,
`deployStatic` throws `Static deployment failed: ...`, `dockerService`
throws `Docker deployment failed: ...` which `deployServer` rewraps as
`Server deployment failed: ...`, and `configureNginx` emits its own
error-level log entry (keyed by the *subdomain*) before rethrowing. -/
def deployTry (env : DeployEnv) (p : Project) (fs0 : List String) :
    Except (String × List LogEntry × List String)
           (Project × List LogEntry × List String) :=
  let projectPath := projectPathOf p env.uuid
  let logs0 : List LogEntry :=
    [⟨p.id, Level.info, "Starting deployment..."⟩,
     ⟨p.id, Level.info, "Cloning repository from " ++ p.githubRepo ++ "..."⟩]
  match env.cloneErr with
  | some e => Except.error (e, logs0, fs0)
  | none =>
  let fs1 := addDir fs0 projectPath
  let logs1 := logs0 ++ [⟨p.id, Level.success, "Repository cloned successfully"⟩]
  let buildType := if p.buildType = "" then "static" else p.buildType
  let logs2 := logs1 ++ [⟨p.id, Level.info, "Deploying as " ++ buildType ++ " application"⟩]
  if buildType = "static" then
    let logs3 := logs2 ++
      [⟨p.id, Level.info, "Working in directory: " ++ p.buildConfig.rootDirectory⟩,
       ⟨p.id, Level.info, "Installing dependencies..."⟩]
    match env.installErr with
    | some e => Except.error ("Static build failed: " ++ e, logs3, fs1)
    | none =>
    let logs4 := logs3 ++
      [⟨p.id, Level.success, "Dependencies installed"⟩,
       ⟨p.id, Level.info, "Running build command: " ++ p.buildConfig.buildCommand⟩]
    match env.buildErr with
    | some e => Except.error ("Static build failed: " ++ e, logs4, fs1)
    | none =>
    let logs5 := logs4 ++
      [⟨p.id, Level.success, "Static build completed successfully"⟩,
       ⟨p.id, Level.info, "Uploading static files to S3..."⟩]
    match env.publishErr with
    | some e => Except.error ("Static deployment failed: " ++ e, logs5, fs1)
    | none =>
    let s3Path := "projects/" ++ p.subDomain
    let deployUrl := "https://" ++ p.subDomain ++ "." ++ BASE_DOMAIN
    let logs6 := logs5 ++
      [⟨p.id, Level.success, "Static files uploaded to S3"⟩,
       ⟨p.id, Level.success, "Static site deployed successfully"⟩]
    let p2 := updateProjectDeployment (updateProjectStatus p Status.deploying)
      ⟨Status.running, deployUrl, some s3Path, none, buildType, none, some env.now⟩
      env.version
    let logs7 := logs6 ++
      [⟨p.id, Level.success, "Deployment complete! Available at " ++ deployUrl⟩]
    Except.ok (updateProjectStatus p2 Status.running, logs7, fs1)
  else
    let logs3 := logs2 ++
      [⟨p.id, Level.info, "Building Docker container for server deployment..."⟩,
       ⟨p.id, Level.info,
        "Environment variables configured: " ++ toString p.envVars.length ++ " variables"⟩]
    match env.dockerErr with
    | some e =>
        Except.error ("Server deployment failed: " ++ ("Docker deployment failed: " ++ e),
          logs3, fs1)
    | none =>
    let serverName := p.subDomain ++ "." ++ BASE_DOMAIN
    match env.nginxErr with
    | some e =>
        let logs4 := logs3 ++ [⟨p.subDomain, Level.error, "Failed to configure Nginx: " ++ e⟩]
        Except.error ("Server deployment failed: " ++ e, logs4, fs1)
    | none =>
    let deployUrl := "https://" ++ p.subDomain ++ "." ++ BASE_DOMAIN
    let logs4 := logs3 ++
      [⟨p.subDomain, Level.success,
        "Nginx configured for " ++ serverName ++ " → 127.0.0.1:" ++ toString env.dockerPort⟩,
       ⟨p.id, Level.success, "Server application deployed successfully"⟩]
    let p2 := updateProjectDeployment (updateProjectStatus p Status.deploying)
      ⟨Status.running, deployUrl, none, some env.dockerContainerId, buildType,
       some env.dockerPort, some env.now⟩ env.version
    let logs5 := logs4 ++
      [⟨p.id, Level.success, "Deployment complete! Available at " ++ deployUrl⟩]
    Except.ok (updateProjectStatus p2 Status.running, logs5, fs1)

/-- Final observable state of one deployment run. -/
structure RunState where
  project : Project
  logs : List LogEntry
  fsDirs : List String
deriving DecidableEq, Repr

/-- Whether the `try` body threw. -/
def runErrored (r : Except (String × List LogEntry × List String)
    (Project × List LogEntry × List String)) : Bool :=
  match r with
  | Except.error _ => true
  | Except.ok _ => false

/-- `DeploymentService.deploy(project)`: the `try` body, the catch-all
`catch` block (set status `failed`, emit one `Deployment failed: ...`
error-level entry, swallow the exception) and the `finally` block
(`cleanupTemp(projectPath)`, which recursively force-removes the workspace
and itself swallows errors).  The function is total: no exception escapes. -/
def deploy (env : DeployEnv) (p : Project) (fs0 : List String) : RunState :=
  let projectPath := projectPathOf p env.uuid
  match deployTry env p fs0 with
  | Except.ok (p1, logs, fs) => ⟨p1, logs, removeDir fs projectPath⟩
  | Except.error (e, logs, fs) =>
      ⟨updateProjectStatus p Status.failed,
       logs ++ [⟨p.id, Level.error, "Deployment failed: " ++ e⟩],
       removeDir fs projectPath⟩

/-- Claim C6: whatever the outcome of the run (success, or a failure at the
clone, build, publish, container, or proxy stage), the ephemeral workspace
path is no longer present when `deploy` returns: the `finally` block always
force-removes it. -/
theorem deploy_workspace_removed (env : DeployEnv) (p : Project) (fs0 : List String) :
    ((deploy env p fs0).fsDirs).contains (projectPathOf p env.uuid) = false := by
  cases hr : deployTry env p fs0 with
  | ok r =>
      obtain ⟨p1, logs, fs⟩ := r
      simp [deploy, hr, removeDir]
  | error r =>
      obtain ⟨e, logs, fs⟩ := r
      simp [deploy, hr, removeDir]

/-- Predicate for error-level log entries addressed to a given room id. -/
def isErrorFor (pid : String) (l : LogEntry) : Bool :=
  l.room == pid && (match l.level with | Level.error => true | _ => false)

/-- Predicate for error-level log entries regardless of room. -/
def isErrLevel (l : LogEntry) : Bool :=
  match l.level with | Level.error => true | _ => false

/-- The message of the exception thrown by the `try` body, if any. -/
def tryErrMsg (r : Except (String × List LogEntry × List String)
    (Project × List LogEntry × List String)) : String :=
  match r with
  | Except.error (e, _, _) => e
  | Except.ok _ => ""

/-- Claim C5 (amended): every run terminates with status `running` or
`failed` and no exception escapes `deploy`; whenever some stage threw, the
project status is `failed` and the log stream contains exactly one
error-level entry addressed to the project's id, namely the boundary entry
`Deployment failed: <underlying message>`.  (The proxy-configuration step
additionally emits its own error entry, but keyed by the subdomain, which is
assumed distinct from the project id.) -/
theorem deploy_failure_boundary (env : DeployEnv) (p : Project) (fs0 : List String)
    (hsd : p.subDomain ≠ p.id) :
    ((deploy env p fs0).project.status = Status.failed ∨
     (deploy env p fs0).project.status = Status.running) ∧
    (runErrored (deployTry env p fs0) = true →
      (deploy env p fs0).project.status = Status.failed ∧
      (deploy env p fs0).logs.filter (isErrorFor p.id) =
        [⟨p.id, Level.error,
          "Deployment failed: " ++ tryErrMsg (deployTry env p fs0)⟩]) := by
  have hb : (p.subDomain == p.id) = false := beq_eq_false_iff_ne.mpr hsd
  obtain ⟨uuid, ver, now, cErr, iErr, bErr, pubErr, dErr, nErr, cid, port⟩ := env
  by_cases h1 : p.buildType = "" <;>
  by_cases h2 : p.buildType = "static" <;>
  cases cErr <;> cases iErr <;> cases bErr <;> cases pubErr <;> cases dErr <;> cases nErr <;>
    simp [deploy, deployTry, runErrored, tryErrMsg, updateProjectStatus,
      updateProjectDeployment, isErrorFor, List.filter, hb, h1, h2]

/-- A run environment where every stage succeeds. -/
def envAllOk : DeployEnv :=
  ⟨"u1", "v1", 100, none, none, none, none, none, none, "c1", 3001⟩

/-- A run environment where `git clone` throws. -/
def envCloneFail : DeployEnv :=
  ⟨"u1", "v1", 100, some "fatal: repository not found", none, none, none, none,
   none, "c1", 3001⟩

/-- A run environment where every stage succeeds except `sudo nginx -t`. -/
def envNginxFail : DeployEnv :=
  ⟨"u1", "v1", 100, none, none, none, none, none,
   some "nginx: configuration file test failed", "c1", 3001⟩

/-- Witness for the amended C5 theorem at a concrete clone failure. -/
theorem deploy_failure_boundary_witness :
    (deploy envCloneFail pMyapp []).project.status = Status.failed ∧
    (deploy envCloneFail pMyapp []).logs.filter (isErrorFor pMyapp.id) =
      [⟨pMyapp.id, Level.error,
        "Deployment failed: " ++ tryErrMsg (deployTry envCloneFail pMyapp [])⟩] :=
  (deploy_failure_boundary envCloneFail pMyapp [] (by decide)).2 (by decide)

/-- A server-mode project (used for the proxy-failure scenario). -/
def pServer : Project :=
  { id := "p9"
    owner := "o9"
    name := "api"
    githubRepo := "https://github.com/u/api"
    subDomain := "api9"
    buildConfig := ⟨".", "npm run build", "dist"⟩
    buildType := "server"
    status := Status.running
    currentDeployment := none
    deployments := []
    deployUrl := "https://api9.gulamgaush.in"
    s3Path := none
    containerId := none
    envVars := [] }

/-- Counterexample to Claim C5 as stated: when the proxy-configuration stage
fails, the run emits *two* error-level log entries — `configureNginx` logs
`Failed to configure Nginx: ...` (keyed by the subdomain) before rethrowing,
and the orchestrator boundary then logs `Deployment failed: ...` — so the
"exactly one error-level log entry" part of the claim is false. -/
theorem deploy_nginx_two_error_entries :
    (deploy envNginxFail pServer []).project.status = Status.failed ∧
    ((deploy envNginxFail pServer []).logs.filter isErrLevel).length = 2 := by
  decide

/-- `Project.findOne({ _id, owner })` as used by the request handlers. -/
def findOne (store : List Project) (pid owner : String) : Option Project :=
  store.find? (fun p => p.id == pid && p.owner == owner)

/-- `deployProject` from `projectController.js`: look the project up by id
and owner; 404 if absent; otherwise *unconditionally* fire
`deploymentService.deploy(project)` (the returned Bool records that a
pipeline was started) and acknowledge with 200 "Deployment started".  No
field of the project — in particular not its status — is consulted. -/
def deployProject (store : List Project) (pid owner : String) :
    (Nat × String) × Bool :=
  match findOne store pid owner with
  | none => ((404, "Project not found"), false)
  | some _ => ((200, "Deployment started"), true)

/-- A project whose previous run is still active (status `deploying`). -/
def pBusy : Project :=
  { id := "pb"
    owner := "ob"
    name := "busyapp"
    githubRepo := "https://github.com/u/busyapp"
    subDomain := "busy"
    buildConfig := ⟨".", "npm run build", "dist"⟩
    buildType := "static"
    status := Status.deploying
    currentDeployment := none
    deployments := []
    deployUrl := "https://busy.gulamgaush.in"
    s3Path := none
    containerId := none
    envVars := [] }

/-- Claim C1 (code bug evaluated on the embedding): a second `deploy()` for
a project whose status is still `deploying` is *not* rejected — the handler
never inspects the status, acknowledges with 200 "Deployment started", and
starts a second pipeline, which immediately proceeds to a second clone. -/
theorem deployProject_accepts_while_deploying :
    pBusy.status = Status.deploying ∧
    deployProject [pBusy] "pb" "ob" = ((200, "Deployment started"), true) ∧
    (deploy envAllOk pBusy []).logs.take 2 =
      [⟨"pb", Level.info, "Starting deployment..."⟩,
       ⟨"pb", Level.info, "Cloning repository from https://github.com/u/busyapp..."⟩] := by
  decide

/-- Deployment data of a first successful static deploy. -/
def dStatic1 : DeploymentData :=
  ⟨Status.running, "https://myapp.gulamgaush.in", some "projects/myapp", none,
   "static", none, some 100⟩

/-- Deployment data of a second successful static deploy. -/
def dStatic2 : DeploymentData :=
  ⟨Status.running, "https://myapp.gulamgaush.in", some "projects/myapp", none,
   "static", none, some 200⟩

/-- Claim C4 (code bug evaluated on the embedding): after two successful
deploys, `updateProjectDeployment` has simply overwritten
`currentDeployment` — the prior record (version "v1") is gone and the
`deployments` history array is still empty, not of length 2. -/
theorem updateProjectDeployment_drops_history :
    (updateProjectDeployment (updateProjectDeployment pMyapp dStatic1 "v1")
        dStatic2 "v2").deployments = [] ∧
    (updateProjectDeployment pMyapp dStatic1 "v1").currentDeployment =
      some ⟨"v1", Status.running, "static", none, some "projects/myapp",
            "https://myapp.gulamgaush.in", none, some 100⟩ ∧
    (updateProjectDeployment (updateProjectDeployment pMyapp dStatic1 "v1")
        dStatic2 "v2").currentDeployment =
      some ⟨"v2", Status.running, "static", none, some "projects/myapp",
            "https://myapp.gulamgaush.in", none, some 200⟩ := by
  decide

/-- First of two distinct projects sharing the name `app`. -/
def pNameA : Project :=
  { id := "idA"
    owner := "oa"
    name := "app"
    githubRepo := "https://github.com/u/app-a"
    subDomain := "suba"
    buildConfig := ⟨".", "npm run build", "dist"⟩
    buildType := "static"
    status := Status.idle
    currentDeployment := none
    deployments := []
    deployUrl := "https://suba.gulamgaush.in"
    s3Path := none
    containerId := none
    envVars := [] }

/-- Second of two distinct projects sharing the name `app`. -/
def pNameB : Project :=
  { id := "idB"
    owner := "ob"
    name := "app"
    githubRepo := "https://github.com/u/app-b"
    subDomain := "subb"
    buildConfig := ⟨".", "npm run build", "dist"⟩
    buildType := "static"
    status := Status.idle
    currentDeployment := none
    deployments := []
    deployUrl := "https://subb.gulamgaush.in"
    s3Path := none
    containerId := none
    envVars := [] }

/-- Claim C9 (code bug evaluated on the embedding): the workspace path is
keyed by the project's *name*, which is not unique, so runs for two distinct
projects (different ids and subdomains) that share a name use the same
workspace path; the UUID fallback is only used when the name is empty, and
no pre-existence check is performed before cloning. -/
theorem projectPath_collision_same_name :
    pNameA.id ≠ pNameB.id ∧ pNameA.subDomain ≠ pNameB.subDomain ∧
    projectPathOf pNameA "uuid-a" = "/tmp/deployments/app" ∧
    projectPathOf pNameB "uuid-b" = "/tmp/deployments/app" := by
  decide

/-- The reverse-proxy state: rule files present in `sites-available`,
rule files linked into `sites-enabled` (the active configuration set that
`nginx -t` validates and a reload activates), and the rules currently loaded
by the running nginx. -/
structure NginxState where
  sitesAvailable : List String
  sitesEnabled : List String
  runningRules : List String
deriving DecidableEq, Repr

/-- `sudo mv` / `sudo ln -sf` overwrite an existing entry of the same name;
on a set-of-names view this is insert-if-absent. -/
def addUnique (l : List String) (x : String) : List String :=
  if x ∈ l then l else l ++ [x]

/-- `DeploymentService.configureNginx(subDomain, port)`, with the outcome of
`sudo nginx -t` supplied by `validationErr` (`none` = the configuration
validated).  The source order is: write the rendered rule to `/tmp`, `sudo
mv` it into `sites-available`, `sudo ln -sf` it into `sites-enabled`, *then*
run `sudo nginx -t`, then `sudo systemctl reload nginx`.  On a validation
failure the function logs an error-level entry (keyed by the subdomain) and
rethrows; the symlink installed into `sites-enabled` is not rolled back. -/
def configureNginx (validationErr : Option String) (st : NginxState)
    (subDomain : String) (port : Nat) :
    NginxState × List LogEntry × Option String :=
  let serverName := subDomain ++ "." ++ BASE_DOMAIN
  let conf := serverName ++ ".conf"
  let st1 : NginxState := { st with sitesAvailable := addUnique st.sitesAvailable conf }
  let st2 : NginxState := { st1 with sitesEnabled := addUnique st1.sitesEnabled conf }
  match validationErr with
  | some e =>
      (st2, [⟨subDomain, Level.error, "Failed to configure Nginx: " ++ e⟩], some e)
  | none =>
      let st3 : NginxState := { st2 with runningRules := st2.sitesEnabled }
      (st3, [⟨subDomain, Level.success,
        "Nginx configured for " ++ serverName ++ " → 127.0.0.1:" ++ toString port⟩],
       none)

/-- A proxy state serving one previously installed rule for an unrelated
subdomain. -/
def stOther : NginxState :=
  ⟨["other.gulamgaush.in.conf"], ["other.gulamgaush.in.conf"],
   ["other.gulamgaush.in.conf"]⟩

/-- Claim C3 (code bug evaluated on the embedding): the new rule is linked
into `sites-enabled` *before* validation runs, so after a failed validation
the active configuration set is no longer what it was — it now contains the
invalid rule (which the next reload, e.g. for an unrelated project, will
activate).  Only the running nginx is left untouched, because the reload is
skipped. -/
theorem configureNginx_enables_before_validate :
    ((configureNginx (some "nginx: configuration file test failed") stOther
        "bad" 3005).1).sitesEnabled =
      ["other.gulamgaush.in.conf", "bad.gulamgaush.in.conf"] ∧
    ((configureNginx (some "nginx: configuration file test failed") stOther
        "bad" 3005).1).sitesEnabled ≠ stOther.sitesEnabled ∧
    (configureNginx (some "nginx: configuration file test failed") stOther
        "bad" 3005).2.2 = some "nginx: configuration file test failed" ∧
    ((configureNginx (some "nginx: configuration file test failed") stOther
        "bad" 3005).1).runningRules = stOther.runningRules := by
  decide

/-- What `docker.listContainers()` reports about one container, as far as
the allocator reads it: the `deployflow.port` label if present, and the
host-bound public ports of its port mappings. -/
structure ContainerInfo where
  labelPort : Option Nat
  publicPorts : List Nat
deriving DecidableEq, Repr

/-- `usedPorts` in `DockerService.getNextAvailablePort`: only the
`deployflow.port` labels are collected; host-bound ports without that label
are not consulted. -/
def usedPortsOf (cs : List ContainerInfo) : List Nat :=
  cs.filterMap (fun c => c.labelPort)

/-- All host-bound public ports visible on the runtime (what the claim calls
"bound on the host at allocation time"). -/
def hostBoundPorts (cs : List ContainerInfo) : List Nat :=
  (cs.map (fun c => c.publicPorts)).flatten

/-- The `while (usedPorts.includes(this.portCounter)) this.portCounter++`
loop, written with explicit fuel; `firstFree` supplies fuel that provably
dominates the number of iterations. -/
def firstFreeAux (used : List Nat) : Nat → Nat → Nat
  | 0, c => c
  | f + 1, c => if c ∈ used then firstFreeAux used f (c + 1) else c

/-- The counter value at which the skip loop stops: the first candidate at
or above `c` that is not in `used`. -/
def firstFree (used : List Nat) (c : Nat) : Nat :=
  firstFreeAux used (used.foldr max 0 + 1 - c) c

theorem le_foldr_max (a : Nat) (l : List Nat) (h : a ∈ l) : a ≤ l.foldr max 0 := by
  induction l with
  | nil => cases h
  | cons b t ih =>
      rcases List.mem_cons.mp h with hb | ht
      · simp [List.foldr, hb, Nat.le_max_left]
      · simp only [List.foldr]
        exact le_trans (ih ht) (Nat.le_max_right _ _)

theorem firstFreeAux_spec (used : List Nat) :
    ∀ f c, used.foldr max 0 < c + f →
      c ≤ firstFreeAux used f c ∧ firstFreeAux used f c ∉ used := by
  intro f
  induction f with
  | zero =>
      intro c h
      refine ⟨Nat.le_refl c, fun hc => ?_⟩
      exact absurd (le_foldr_max c used hc) (by omega)
  | succ f ih =>
      intro c h
      by_cases hc : c ∈ used
      · have hrec := ih (c + 1) (by omega)
        simpa [firstFreeAux, hc] using ⟨Nat.le_trans (by omega) hrec.1, hrec.2⟩
      · simp [firstFreeAux, hc]

theorem firstFree_spec (used : List Nat) (c : Nat) :
    c ≤ firstFree used c ∧ firstFree used c ∉ used :=
  firstFreeAux_spec used (used.foldr max 0 + 1 - c) c (by omega)

/-- `DockerService.getNextAvailablePort` as one allocation step on the
mutable `portCounter`.  `some cs` means `docker.listContainers()` resolved
with `cs`; the loop then skips label-recorded ports and the counter is
post-incremented.  `none` means the listing threw: the catch block returns
the bare counter (post-incremented) with no availability check at all. -/
def getNextAvailablePort : Option (List ContainerInfo) → Nat → Nat × Nat
  | some cs, counter =>
      let q := firstFree (usedPortsOf cs) counter
      (q, q + 1)
  | none, counter => (counter, counter + 1)

theorem getNextAvailablePort_bounds (e : Option (List ContainerInfo)) (c : Nat) :
    c ≤ (getNextAvailablePort e c).1 ∧
    (getNextAvailablePort e c).2 = (getNextAvailablePort e c).1 + 1 := by
  cases e with
  | none => exact ⟨Nat.le_refl c, rfl⟩
  | some cs => exact ⟨(firstFree_spec (usedPortsOf cs) c).1, rfl⟩

/-- A sequence of allocation calls: one container listing (or listing
failure) per call, threading the counter.  Each call's
read-check-and-increment runs synchronously after its listing resolves
(nothing suspends inside it), so interleaved calls still execute these
steps one after the other on the event loop. -/
def allocRun : List (Option (List ContainerInfo)) → Nat → List Nat
  | [], _ => []
  | e :: es, c =>
      let r := getNextAvailablePort e c
      r.1 :: allocRun es r.2

theorem allocRun_lb (envs : List (Option (List ContainerInfo))) :
    ∀ c q, q ∈ allocRun envs c → c ≤ q := by
  induction envs with
  | nil => intro c q hq; cases hq
  | cons e es ih =>
      intro c q hq
      rcases List.mem_cons.mp hq with h | h
      · exact h ▸ (getNextAvailablePort_bounds e c).1
      · have h1 := (getNextAvailablePort_bounds e c).1
        have h2 := (getNextAvailablePort_bounds e c).2
        have := ih (getNextAvailablePort e c).2 q h
        omega

theorem allocRun_pairwise_lt (envs : List (Option (List ContainerInfo))) :
    ∀ c, (allocRun envs c).Pairwise (fun a b => a < b) := by
  induction envs with
  | nil => intro c; simp [allocRun]
  | cons e es ih =>
      intro c
      rw [allocRun, List.pairwise_cons]
      refine ⟨fun q hq => ?_, ih _⟩
      have h1 := (getNextAvailablePort_bounds e c).1
      have h2 := (getNextAvailablePort_bounds e c).2
      have := allocRun_lb es (getNextAvailablePort e c).2 q hq
      omega

theorem allocRun_avoids_labeled (envs : List (Option (List ContainerInfo))) :
    ∀ c, ∀ pr ∈ envs.zip (allocRun envs c), ∀ cs, pr.1 = some cs →
      pr.2 ∉ usedPortsOf cs := by
  induction envs with
  | nil => intro c pr hpr; cases hpr
  | cons e es ih =>
      intro c pr hpr cs hcs
      rw [allocRun, List.zip_cons_cons] at hpr
      rcases List.mem_cons.mp hpr with h | h
      · subst h
        simp only at hcs
        subst hcs
        exact (firstFree_spec (usedPortsOf cs) c).2
      · exact ih _ pr h cs hcs

/-- Claim C7 (amended): for any sequence of allocation calls starting from
the base counter 3001 (including interleaved concurrent calls — see
`allocRun`), the returned ports are pairwise distinct, each is at least
3001, and whenever the container listing succeeded, the returned port
avoids every port recorded by a `deployflow.port` label in that listing.
(Host-bound ports without the label are *not* avoided, and a failed listing
skips the availability check altogether — see the counterexample.) -/
theorem allocRun_ports_spec (envs : List (Option (List ContainerInfo))) :
    (allocRun envs 3001).Pairwise (fun a b => a ≠ b) ∧
    (∀ q ∈ allocRun envs 3001, 3001 ≤ q) ∧
    (∀ pr ∈ envs.zip (allocRun envs 3001), ∀ cs, pr.1 = some cs →
      pr.2 ∉ usedPortsOf cs) := by
  refine ⟨?_, allocRun_lb envs 3001, allocRun_avoids_labeled envs 3001⟩
  exact (allocRun_pairwise_lt envs 3001).imp (fun h => Nat.ne_of_lt h)

/-- Witness for the C7 theorem on a concrete two-call sequence: the first
listing shows a managed container labeled with port 3001, the second
listing fails. -/
theorem allocRun_ports_spec_witness :
    allocRun [some [⟨some 3001, []⟩], none] 3001 = [3002, 3003] ∧
    (allocRun [some [⟨some 3001, []⟩], none] 3001).Pairwise (fun a b => a ≠ b) :=
  ⟨by decide, (allocRun_ports_spec [some [⟨some 3001, []⟩], none]).1⟩

/-- Counterexample to Claim C7 as stated: a container that publishes host
port 3001 but carries no `deployflow.port` label is invisible to the
allocator, which happily returns 3001 even though it is bound on the host
at allocation time. -/
theorem getNextAvailablePort_ignores_host_bound :
    (getNextAvailablePort (some [⟨none, [3001]⟩]) 3001).1 = 3001 ∧
    3001 ∈ hostBoundPorts [⟨none, [3001]⟩] := by
  decide

/-- One line-delimited JSON message of a docker build output stream.
`buildImage` parses each line and forwards `parsed.stream` lines to the
build log; `error` messages — how the Docker API reports a failed build
step in-stream — are parsed but never inspected. -/
inductive BuildStreamMsg where
  | stream (line : String)
  | errorMsg (line : String)
deriving DecidableEq, Repr

/-- What one `docker.buildImage` call delivers to `buildImage`'s handlers:
the callback may be invoked with an error, the stream may emit an `error`
event, or the stream ends normally after a sequence of messages.  An
ordinary failed build is the third case: the failure travels in-stream as
an `error` JSON message and the stream still ends normally. -/
inductive BuildOutcome where
  | callbackErr (msg : String)
  | streamErr (msg : String)
  | streamEnd (msgs : List BuildStreamMsg)
deriving DecidableEq, Repr

/-- `DockerService.buildImage(projectPath, imageName, projectId)`: logs the
start, forwards `parsed.stream` lines as info entries, rejects on a
callback error or on a stream `error` event — and on stream `end` it
unconditionally logs `Docker image built successfully` and resolves,
whether or not the stream carried `error` messages (the `parsed.error`
field is never read).  Returns the promise outcome together with the
`emitBuildLog(level, message)` calls made. -/
def buildImage (imageName : String) (o : BuildOutcome) :
    Except String Unit × List (Level × String) :=
  let start : Level × String := (Level.info, "Building Docker image: " ++ imageName)
  match o with
  | BuildOutcome.callbackErr e => (Except.error e, [start])
  | BuildOutcome.streamErr e =>
      (Except.error e, [start, (Level.error, "Build failed: " ++ e)])
  | BuildOutcome.streamEnd msgs =>
      (Except.ok (),
       (start ::
         msgs.filterMap (fun m =>
           match m with
           | BuildStreamMsg.stream line => some (Level.info, line)
           | BuildStreamMsg.errorMsg _ => none)) ++
         [(Level.success, "Docker image built successfully")])

/-- Environment of one `DockerService.buildAndDeploy` call: what the image
build delivers, the outcome of stopping/removing an existing container and
of creating/starting/health-checking the new container, plus the id and
host port the new container would get. -/
structure DockerEnv where
  buildOutcome : BuildOutcome
  stopErr : Option String
  runErr : Option String
  newContainerId : String
  newPort : Nat
deriving DecidableEq, Repr

/-- One container known to `docker.listContainers({ all: true })`: its
name and its id. -/
structure ContainerRec where
  name : String
  cid : String
deriving DecidableEq, Repr

/-- The container runtime state the driver observes and mutates. -/
structure DockerWorld where
  containers : List ContainerRec
deriving DecidableEq, Repr

/-- The fixed container name `project-${projectId}`. -/
def containerNameOf (projectId : String) : String :=
  "project-" ++ projectId

/-- `DockerService.stopExistingContainer`: find a container whose name
matches `project-${projectId}`; if present, stop it and remove it by id.
The whole body is wrapped in try/catch: a failure is logged to the console
and swallowed, leaving the container in place. -/
def stopExistingContainer (stopErr : Option String) (w : DockerWorld)
    (projectId : String) : DockerWorld × List String :=
  match w.containers.find? (fun c => c.name == containerNameOf projectId) with
  | some ex =>
      match stopErr with
      | some e => (w, ["Error stopping existing container: " ++ e])
      | none => (⟨w.containers.filter (fun c => c.cid != ex.cid)⟩, [])
  | none => (w, [])

/-- The result of a successful `runContainer`. -/
structure RunInfo where
  containerId : String
  port : Nat
deriving DecidableEq, Repr

/-- Observable outcome of one `buildAndDeploy` call: the promise result,
the container runtime state afterwards, the `emitBuildLog` calls, and the
console log. -/
structure DockerResult where
  result : Except String RunInfo
  world : DockerWorld
  buildLogs : List (Level × String)
  consoleLogs : List String

/-- `DockerService.buildAndDeploy(projectPath, projectId, envVars)`: ensure
a Dockerfile, run `buildImage`, *then* stop/remove any existing container
for the project (best-effort), then run the new container (named
`project-${projectId}`, with the environment-supplied id and host port).
Any rejection is rewrapped as `Docker deployment failed: ...` and
rethrown. -/
def buildAndDeploy (env : DockerEnv) (w : DockerWorld) (projectId : String) :
    DockerResult :=
  let imageName := "project-" ++ projectId ++ ":latest"
  let b := buildImage imageName env.buildOutcome
  match b.1 with
  | Except.error e =>
      ⟨Except.error ("Docker deployment failed: " ++ e), w, b.2, []⟩
  | Except.ok _ =>
    let s := stopExistingContainer env.stopErr w projectId
    match env.runErr with
    | some e => ⟨Except.error ("Docker deployment failed: " ++ e), s.1, b.2, s.2⟩
    | none =>
        ⟨Except.ok ⟨env.newContainerId, env.newPort⟩,
         ⟨s.1.containers ++ [⟨containerNameOf projectId, env.newContainerId⟩]⟩,
         b.2, s.2⟩

/-- The docker world before a redeploy of project `px`: its old container
(id `cOld`) is present. -/
def wOld : DockerWorld := ⟨[⟨"project-px", "cOld"⟩]⟩

/-- A `buildAndDeploy` environment where the docker build fails in-stream
(the stream carries an `error` message and then ends normally) and the
remaining steps succeed. -/
def envBuildFailInStream : DockerEnv :=
  ⟨BuildOutcome.streamEnd
    [BuildStreamMsg.errorMsg "npm install returned a non-zero code: 1"],
   none, none, "cNew", 3003⟩

/-- Claim C8 (code bug evaluated on the embedding): an ordinary failed
image build does *not* leave the old container untouched.  The Docker API
reports the failure as an in-stream `error` message and ends the stream
normally; `buildImage` resolves anyway — even logging
`Docker image built successfully` — and the run proceeds: the old
container `cOld` is stopped and removed, and a new container is started
from the stale `project-px:latest` image.  (The retirement step itself is
best-effort, as the claim says — its try/catch swallows stop/remove
failures — but the ordering guarantee fails.) -/
theorem buildAndDeploy_retires_despite_failed_build :
    (buildImage "project-px:latest" envBuildFailInStream.buildOutcome).1 =
      Except.ok () ∧
    (Level.success, "Docker image built successfully") ∈
      (buildImage "project-px:latest" envBuildFailInStream.buildOutcome).2 ∧
    (buildAndDeploy envBuildFailInStream wOld "px").result =
      Except.ok ⟨"cNew", 3003⟩ ∧
    (⟨"project-px", "cOld"⟩ : ContainerRec) ∉
      (buildAndDeploy envBuildFailInStream wOld "px").world.containers := by
  refine ⟨rfl, by decide, rfl, by decide⟩

/-- A teardown action requested from an external backend during
`cleanup(project)`. -/
inductive CleanupAction where
  | deleteS3 (s3Path : String)
  | stopDockerContainer (cid : String)
deriving DecidableEq, Repr

/-- `DeploymentService.cleanup(project)`:
`if (project.buildType === 'static' && project.currentDeployment.s3Path)`
— when `buildType` is `'static'`, the member access
`project.currentDeployment.s3Path` is evaluated, and throws a TypeError when
`currentDeployment` is absent; when it is present but `s3Path` is falsy the
branch is skipped.  The second `if` guards on `buildType === 'server'`
first, so for a server project `currentDeployment` is never dereferenced. -/
def cleanup (p : Project) : Except String (List CleanupAction × List LogEntry) :=
  if p.buildType = "static" then
    match p.currentDeployment with
    | none => Except.error
        "TypeError: Cannot read properties of undefined (reading 's3Path')"
    | some d =>
        if (d.s3Path.getD "") ≠ "" then
          Except.ok ([CleanupAction.deleteS3 (d.s3Path.getD "")],
            [⟨p.id, Level.info, "Cleaning up S3 files..."⟩])
        else Except.ok ([], [])
  else if p.buildType = "server" then
    match p.containerId with
    | some cid =>
        Except.ok ([CleanupAction.stopDockerContainer cid],
          [⟨p.id, Level.info, "Stopping Docker container..."⟩])
    | none => Except.ok ([], [])
  else Except.ok ([], [])

/-- `deleteProject` from `projectController.js`:
`Project.findOneAndDelete({ _id, owner })` removes the record first; 404 if
nothing matched; then `await deploymentService.cleanup(project)` runs on the
already-deleted document — if it throws, the handler answers 500 "Server
error", with the record already gone from the store. -/
def deleteProject (store : List Project) (pid owner : String) :
    (Nat × String) × List Project :=
  match findOne store pid owner with
  | none => ((404, "Project not found"), store)
  | some p =>
    let store1 := store.eraseP (fun q => q.id == pid && q.owner == owner)
    match cleanup p with
    | Except.error _ => ((500, "Server error"), store1)
    | Except.ok _ => ((200, "Project deleted successfully"), store1)

/-- Claim C10: for any static-mode project with no current deployment
record, `cleanup` dereferences the absent record and throws instead of
completing as a no-op, and a delete request for it answers 500 "Server
error" even though `findOneAndDelete` has already removed the record from
the store. -/
theorem cleanup_throws_on_missing_deployment (store : List Project) (p : Project)
    (hb : p.buildType = "static") (hc : p.currentDeployment = none)
    (hf : findOne store p.id p.owner = some p) :
    cleanup p = Except.error
      "TypeError: Cannot read properties of undefined (reading 's3Path')" ∧
    (deleteProject store p.id p.owner).1 = (500, "Server error") ∧
    (deleteProject store p.id p.owner).2 =
      store.eraseP (fun q => q.id == p.id && q.owner == p.owner) := by
  have hcl : cleanup p = Except.error
      "TypeError: Cannot read properties of undefined (reading 's3Path')" := by
    simp [cleanup, hb, hc]
  refine ⟨hcl, ?_, ?_⟩ <;> simp [deleteProject, hf, hcl]

/-- A static project that was never deployed. -/
def pStaticNoDep : Project :=
  { id := "ps"
    owner := "os"
    name := "neverdeployed"
    githubRepo := "https://github.com/u/neverdeployed"
    subDomain := "nd"
    buildConfig := ⟨".", "npm run build", "dist"⟩
    buildType := "static"
    status := Status.idle
    currentDeployment := none
    deployments := []
    deployUrl := "https://nd.gulamgaush.in"
    s3Path := none
    containerId := none
    envVars := [] }

/-- Witness for the C10 theorem at a concrete never-deployed static
project. -/
theorem cleanup_throws_on_missing_deployment_witness :
    cleanup pStaticNoDep = Except.error
      "TypeError: Cannot read properties of undefined (reading 's3Path')" ∧
    (deleteProject [pStaticNoDep] "ps" "os").1 = (500, "Server error") :=
  ⟨(cleanup_throws_on_missing_deployment [pStaticNoDep] pStaticNoDep rfl rfl
      (by decide)).1,
   (cleanup_throws_on_missing_deployment [pStaticNoDep] pStaticNoDep rfl rfl
      (by decide)).2.1⟩
